import Mathlib

/-!
Shallow embedding of the payroll query service (`src/app.py`) and proofs
about its duration parsing, payment arithmetic, response shaping and
conversation-history read semantics.

Modelling conventions:
* Python `float` arithmetic is embedded as exact rational (`ℚ`) arithmetic;
  every concrete value appearing in the claims is a dyadic rational on which
  double-precision evaluation is exact, so the model agrees with the code there.
* Python strings are modelled as `String` / `List Char`; `str.split(":")` is
  `List.splitOn ':'` on the character list, and `str.strip()` drops leading and
  trailing whitespace characters.
* A handler is embedded as a function of the rows the database returns
  (the SQL engine is an external collaborator); a raised exception that the
  `except Exception` block turns into an HTTP 500 is an explicit
  `serverError` response constructor, and the `{"success": false, ...}`
  body returned when the contractor lookup misses is a `notFound` constructor.
-/

set_option maxRecDepth 4000

deriving instance DecidableEq for Except

namespace JobTracker

/-- Numeric value of a list of decimal digit characters, most significant first. -/
def digitsToNat (cs : List Char) : Nat :=
  cs.foldl (fun n c => n * 10 + (c.toNat - 48)) 0

/-- Python `str.strip()` on a character list: drop leading and trailing whitespace. -/
def stripChars (cs : List Char) : List Char :=
  ((cs.dropWhile Char.isWhitespace).reverse.dropWhile Char.isWhitespace).reverse

/-- Model of Python `float(s)` restricted to plain decimal literals:
optional surrounding whitespace, an optional sign, then digits with an
optional decimal point (at least one digit overall).  `none` models the
`ValueError` that `float` raises on a non-numeric string.  (Exponent
forms, `inf`/`nan` and digit-group underscores are outside the model;
no claim exercises them.) -/
def pyFloat? (cs : List Char) : Option ℚ :=
  let cs := stripChars cs
  let sgn : ℚ × List Char :=
    match cs with
    | [] => (1, [])
    | c :: rest =>
      if c = '-' then (-1, rest) else if c = '+' then (1, rest) else (1, c :: rest)
  let intPart := sgn.2.takeWhile Char.isDigit
  let rest := sgn.2.dropWhile Char.isDigit
  match rest with
  | [] => if intPart = [] then none else some (sgn.1 * digitsToNat intPart)
  | '.' :: rest2 =>
    let fracPart := rest2.takeWhile Char.isDigit
    if rest2.dropWhile Char.isDigit = [] ∧ ¬(intPart = [] ∧ fracPart = []) then
      some (sgn.1 * ((digitsToNat intPart : ℚ) + (digitsToNat fracPart : ℚ) / 10 ^ fracPart.length))
    else none
  | _ => none

/-- Loop body of the hours aggregation in `get_hours_summary` / `get_payment_status`:
`time_parts = s["total_hours"].split(":")` followed by
`float(time_parts[0]) + float(time_parts[1])/60`.  A string without `':'`
raises `IndexError` when `time_parts[1]` is read (after `float(time_parts[0])`
is evaluated, so a non-numeric single part raises `ValueError` first); a
non-numeric part raises `ValueError`.  Either exception aborts the request. -/
def parseHours (cs : List Char) : Except String ℚ :=
  match cs.splitOn ':' with
  | [] => Except.error "list index out of range"
  | [p0] =>
    match pyFloat? p0 with
    | some _ => Except.error "list index out of range"
    | none => Except.error "could not convert string to float"
  | p0 :: p1 :: _ =>
    match pyFloat? p0, pyFloat? p1 with
    | some h, some m => Except.ok (h + m / 60)
    | some _, none => Except.error "could not convert string to float"
    | none, _ => Except.error "could not convert string to float"

/-- Contribution of one work-session row: `if s["total_hours"]:` skips a NULL
(`none`) or empty duration string, so those contribute nothing. -/
def sessionHours (total_hours : Option String) : Except String ℚ :=
  match total_hours with
  | none => Except.ok 0
  | some s => if s = "" then Except.ok 0 else parseHours s.data

/-- The aggregation loop `for s in sessions: ... total_hours += hours`,
with an exception from any iteration aborting the whole request. -/
def totalHours : List (Option String) → Except String ℚ
  | [] => Except.ok 0
  | s :: rest =>
    match sessionHours s with
    | Except.error e => Except.error e
    | Except.ok h =>
      match totalHours rest with
      | Except.error e => Except.error e
      | Except.ok t => Except.ok (h + t)

/-- Round a rational to the nearest integer, ties to the even integer:
the rounding Python's `round` applies to an exactly representable value. -/
def rne (q : ℚ) : ℤ :=
  if q - ⌊q⌋ < 1/2 then ⌊q⌋
  else if (1 : ℚ)/2 < q - ⌊q⌋ then ⌊q⌋ + 1
  else if ⌊q⌋ % 2 = 0 then ⌊q⌋ else ⌊q⌋ + 1

/-- Python `round(x, 2)` on an exactly representable value. -/
def pyRound2 (q : ℚ) : ℚ := (rne (q * 100) : ℚ) / 100

/-- Round to the nearest integer with ties away from zero — the
"standard half-up rounding" the specification claims the service uses. -/
def rhu (q : ℚ) : ℤ := if 0 ≤ q then ⌊q + 1/2⌋ else -⌊-q + 1/2⌋

/-- Half-up rounding to 2 decimal places, as the specification describes it. -/
def roundHalfUp2 (q : ℚ) : ℚ := (rhu (q * 100) : ℚ) / 100

/-! ### Character-level and parsing lemmas -/

/-- A decimal digit is not a whitespace character. -/
theorem not_whitespace_of_isDigit {c : Char} (h : c.isDigit = true) :
    c.isWhitespace = false := by
  by_contra hws
  rw [Bool.not_eq_false] at hws
  have hcases : c = ' ' ∨ c = '\t' ∨ c = '\x0d' ∨ c = '\n' := by
    simpa [Char.isWhitespace, or_assoc] using hws
  rcases hcases with h1 | h1 | h1 | h1 <;> subst h1 <;> exact absurd h (by decide)

/-- A decimal digit is not the `':'` separator. -/
theorem ne_colon_of_isDigit {c : Char} (h : c.isDigit = true) : c ≠ ':' := by
  intro h1; rw [h1] at h; exact absurd h (by decide)

/-- A decimal digit is not a sign character. -/
theorem ne_sign_of_isDigit {c : Char} (h : c.isDigit = true) : c ≠ '-' ∧ c ≠ '+' := by
  constructor <;> intro h1 <;> rw [h1] at h <;> exact absurd h (by decide)

theorem dropWhile_eq_self_of_forall {p : Char → Bool} {cs : List Char}
    (h : ∀ c ∈ cs, p c = false) : cs.dropWhile p = cs := by
  cases cs with
  | nil => rfl
  | cons c t => simp [List.dropWhile_cons, h c (by simp)]

/-- Stripping whitespace from an all-digit string is the identity. -/
theorem stripChars_of_digits {cs : List Char} (h : ∀ c ∈ cs, c.isDigit = true) :
    stripChars cs = cs := by
  unfold stripChars
  rw [dropWhile_eq_self_of_forall (fun c hc => not_whitespace_of_isDigit (h c hc))]
  rw [dropWhile_eq_self_of_forall
    (fun c hc => not_whitespace_of_isDigit (h c (List.mem_reverse.mp hc)))]
  exact List.reverse_reverse cs

/-- `float` on a nonempty string of decimal digits returns its numeric value. -/
theorem pyFloat?_digits {cs : List Char} (hne : cs ≠ [])
    (h : ∀ c ∈ cs, c.isDigit = true) :
    pyFloat? cs = some ((digitsToNat cs : ℚ)) := by
  cases cs with
  | nil => exact absurd rfl hne
  | cons c t =>
    have hdig := h c (by simp)
    have hsg := ne_sign_of_isDigit hdig
    have hstrip : stripChars (c :: t) = c :: t := stripChars_of_digits h
    have htake : (c :: t).takeWhile Char.isDigit = c :: t := List.takeWhile_eq_self_iff.mpr h
    have hdrop : (c :: t).dropWhile Char.isDigit = [] := List.dropWhile_eq_nil_iff.mpr h
    simp only [pyFloat?, hstrip, if_neg hsg.1, if_neg hsg.2, htake, hdrop]
    simp

/-- On a well-formed `"<digits>:<digits>"` duration string the loop body computes
`hours + minutes/60`. -/
theorem parseHours_wellFormed {hd md : List Char} (hh : hd ≠ []) (hm : md ≠ [])
    (h1 : ∀ c ∈ hd, c.isDigit = true) (h2 : ∀ c ∈ md, c.isDigit = true) :
    parseHours (hd ++ ':' :: md) = Except.ok ((digitsToNat hd : ℚ) + (digitsToNat md : ℚ) / 60) := by
  have hsplit : (hd ++ ':' :: md).splitOn ':' = [hd, md] := by
    show (hd ++ ':' :: md).splitOnP (· == ':') = [hd, md]
    have hlast : md.splitOnP (· == ':') = [md] :=
      List.splitOnP_eq_single (· == ':') md
        (fun x hx => by simp [ne_colon_of_isDigit (h2 x hx)])
    have hfirst := List.splitOnP_first (· == ':') hd
      (fun x hx => by simp [ne_colon_of_isDigit (h1 x hx)]) ':' (by simp) md
    rw [hfirst, hlast]
  simp only [parseHours, hsplit, pyFloat?_digits hh h1, pyFloat?_digits hm h2]

/-! ### Data model -/

/-- A `contractor_applications` row as read by the handlers (the SQL
`WHERE telegram_id = $1 AND status = 'approved' LIMIT 1` lookup is the external
database; a handler receives the resulting row, or `none` when the lookup
misses).  `admin_pay_rate` is a nullable numeric column and
`is_cis_registered` a nullable text column holding `"true"`/`"false"`. -/
structure Contractor where
  id : Int
  first_name : Option String
  last_name : Option String
  email : Option String
  username : Option String
  admin_pay_rate : Option ℚ
  is_cis_registered : Option String
deriving DecidableEq

/-- Python `x or d` on a nullable numeric value: `None` and `0` are falsy,
so both select the default `d`. -/
def ratOr (v : Option ℚ) (d : ℚ) : ℚ :=
  match v with
  | none => d
  | some x => if x = 0 then d else x

/-- Python `str.strip()`. -/
def pyStrip (s : String) : String := ⟨stripChars s.data⟩

/-- `f"{contractor['first_name'] or ''} {contractor['last_name'] or ''}".strip()`
as written in `get_hours_summary` (src/app.py line 139). -/
def hoursJoinKey (first last : Option String) : String :=
  pyStrip (first.getD "" ++ " " ++ last.getD "")

/-- The same expression as written in `get_payment_status` (line 222). -/
def paymentsJoinKey (first last : Option String) : String :=
  pyStrip (first.getD "" ++ " " ++ last.getD "")

/-- The same expression as written in `get_subcontractor_quotes` (line 285). -/
def quotesJoinKey (first last : Option String) : String :=
  pyStrip (first.getD "" ++ " " ++ last.getD "")

/-- The same expression as written in `get_subcontractor_milestones` (line 335). -/
def milestonesJoinKey (first last : Option String) : String :=
  pyStrip (first.getD "" ++ " " ++ last.getD "")

/-- The same expression as written in `get_subcontractor_payment_status` (line 386). -/
def paymentStatusJoinKey (first last : Option String) : String :=
  pyStrip (first.getD "" ++ " " ++ last.getD "")

/-- Modelled from the spec: "trimmed concatenation of first and last name with a
single separating space, empty parts tolerated" (§3 Invariant). -/
def specJoinKey (first last : Option String) : String :=
  pyStrip (first.getD "" ++ " " ++ last.getD "")

/-! ### Worker-type endpoint -/

/-- The hard-coded allow-list in the worker-type SQL CASE expression (line 89). -/
def dayRateUsernames : List String := ["dalwayne", "marius", "mohamed", "said.tiss", "hamza"]

/-- `CASE WHEN username IN (...) THEN 'day-rate' ELSE 'sub-contractor' END`;
a NULL username never matches SQL `IN`. -/
def workerTypeOf (username : Option String) : String :=
  match username with
  | some u => if dayRateUsernames.contains u then "day-rate" else "sub-contractor"
  | none => "sub-contractor"

/-- The `user` object of a successful worker-type response. -/
structure WorkerUser where
  id : Int
  name : String
  email : Option String
  username : Option String
  worker_type : String
deriving DecidableEq

/-- Response of `GET /api/telegram/worker-type/{chat_id}`: `notFound` is the
HTTP-200 `{"success": false, "error": ..., "chat_id": ...}` body, `serverError`
the `HTTPException(500)` raised by the catch-all handler. -/
inductive WorkerTypeResp where
  | notFound (error : String) (chat_id : String)
  | serverError (detail : String)
  | ok (user : WorkerUser)
deriving DecidableEq

/-- `get_worker_type` (lines 78-117), as a function of the fetched row. -/
def get_worker_type (chat_id : String) (user : Option Contractor) : WorkerTypeResp :=
  match user with
  | none => WorkerTypeResp.notFound "User not found or not approved" chat_id
  | some u =>
    WorkerTypeResp.ok
      { id := u.id
        name := pyStrip (u.first_name.getD "" ++ " " ++ u.last_name.getD "")
        email := u.email
        username := u.username
        worker_type := workerTypeOf u.username }

/-! ### Hours endpoint -/

/-- The `summary` block of the hours response. -/
structure HoursSummary where
  total_hours : ℚ
  total_sessions : Nat
  total_gross_pay : ℚ
  total_net_pay : ℚ
deriving DecidableEq

/-- Response of `GET /api/telegram/hours/{chat_id}`.  `notFound` is the
HTTP-200 `{"success": false, "error": "User not found"}` body and
`serverError` the `HTTPException(500, detail)` from the catch-all handler. -/
inductive HoursResp where
  | notFound (error : String)
  | serverError (detail : String)
  | ok (period : String) (contractor_name : String) (summary : HoursSummary)
deriving DecidableEq

/-- `get_hours_summary` (lines 119-200), as a function of the contractor row and
the duration strings of the fetched work sessions (the `period` only selects
which SQL time window produced those rows).  The per-session echo list of the
response is a field-by-field reshaping of the fetched rows with no computation
and is omitted here. -/
def get_hours_summary (contractor : Option Contractor) (period : String)
    (sessions : List (Option String)) : HoursResp :=
  match contractor with
  | none => HoursResp.notFound "User not found"
  | some c =>
    let contractor_name := hoursJoinKey c.first_name c.last_name
    let hourly_rate := ratOr c.admin_pay_rate 9
    match totalHours sessions with
    | Except.error e => HoursResp.serverError ("Database error: " ++ e)
    | Except.ok th =>
      let total_gross := th * hourly_rate
      let total_net := total_gross * (8/10)
      HoursResp.ok period contractor_name
        { total_hours := pyRound2 th
          total_sessions := sessions.length
          total_gross_pay := pyRound2 total_gross
          total_net_pay := pyRound2 total_net }

/-! ### Payments endpoint -/

/-- The `payment_info` block of the payments response. -/
structure PaymentInfo where
  hourly_rate : ℚ
  cis_registered : Bool
  cis_rate : ℚ
  this_week_gross : ℚ
  this_week_net : ℚ
  cis_deduction : ℚ
deriving DecidableEq

/-- Response of `GET /api/telegram/payments/{chat_id}`. -/
inductive PayResp where
  | notFound (error : String)
  | serverError (detail : String)
  | ok (contractor_name : String) (payment_info : PaymentInfo)
deriving DecidableEq

/-- The `cis_deduction` field of a successful payments response. -/
def PayResp.cisDeduction : PayResp → Option ℚ
  | PayResp.ok _ info => some info.cis_deduction
  | _ => none

/-- `get_payment_status` (lines 202-263), as a function of the contractor row
and the duration strings of this week's sessions. -/
def get_payment_status (contractor : Option Contractor)
    (week_sessions : List (Option String)) : PayResp :=
  match contractor with
  | none => PayResp.notFound "User not found"
  | some c =>
    let contractor_name := paymentsJoinKey c.first_name c.last_name
    match totalHours week_sessions with
    | Except.error e => PayResp.serverError ("Database error: " ++ e)
    | Except.ok total_week_hours =>
      let hourly_rate := ratOr c.admin_pay_rate 9
      let cis_rate : ℚ := if c.is_cis_registered == some "true" then 20 else 30
      let week_gross := total_week_hours * hourly_rate
      let week_net := week_gross * (1 - cis_rate / 100)
      PayResp.ok contractor_name
        { hourly_rate := ratOr c.admin_pay_rate 0
          cis_registered := c.is_cis_registered == some "true"
          cis_rate := if c.is_cis_registered == some "true" then 20 else 30
          this_week_gross := pyRound2 week_gross
          this_week_net := pyRound2 week_net
          cis_deduction := pyRound2 (week_gross - week_net) }

/-! ### Sub-contractor job endpoints -/

/-- A `jobs` table row as read by the sub-contractor endpoints. -/
structure Job where
  id : Int
  title : String
  location : String
  description : String
  status : String
  due_date : Option String
  phases : Option String
deriving DecidableEq

/-- One element of the quotes response `data` list. -/
structure QuoteItem where
  id : Int
  title : String
  location : String
  description : String
  status : String
deriving DecidableEq

/-- Response of `GET /api/telegram/subcontractor/quotes/{chat_id}`. -/
inductive QuotesResp where
  | notFound (error : String)
  | serverError (detail : String)
  | ok (contractor_name : String) (data : List QuoteItem)
deriving DecidableEq

/-- `get_subcontractor_quotes` (lines 265-313). -/
def get_subcontractor_quotes (contractor : Option Contractor) (jobs : List Job) : QuotesResp :=
  match contractor with
  | none => QuotesResp.notFound "User not found"
  | some c =>
    let contractor_name := quotesJoinKey c.first_name c.last_name
    QuotesResp.ok contractor_name
      (jobs.map fun j =>
        { id := j.id, title := j.title, location := j.location,
          description := j.description, status := j.status })

/-- One element of the milestones response `data` list. -/
structure MilestoneItem where
  job_id : Int
  title : String
  location : String
  status : String
  due_date : Option String
  phases : Option String
deriving DecidableEq

/-- Response of `GET /api/telegram/subcontractor/milestones/{chat_id}`. -/
inductive MilestonesResp where
  | notFound (error : String)
  | serverError (detail : String)
  | ok (contractor_name : String) (data : List MilestoneItem)
deriving DecidableEq

/-- `get_subcontractor_milestones` (lines 315-364). -/
def get_subcontractor_milestones (contractor : Option Contractor) (jobs : List Job) :
    MilestonesResp :=
  match contractor with
  | none => MilestonesResp.notFound "User not found"
  | some c =>
    let contractor_name := milestonesJoinKey c.first_name c.last_name
    MilestonesResp.ok contractor_name
      (jobs.map fun j =>
        { job_id := j.id, title := j.title, location := j.location,
          status := j.status, due_date := j.due_date, phases := j.phases })

/-- One element of the sub-contractor payment-status response `data` list. -/
structure PaymentStatusItem where
  id : Int
  title : String
  status : String
  due_date : Option String
deriving DecidableEq

/-- Response of `GET /api/telegram/subcontractor/payment-status/{chat_id}`. -/
inductive PaymentStatusResp where
  | notFound (error : String)
  | serverError (detail : String)
  | ok (contractor_name : String) (data : List PaymentStatusItem)
deriving DecidableEq

/-- `get_subcontractor_payment_status` (lines 366-416).  The source also builds
`completed_jobs` and `in_progress_jobs` partitions (lines 399-400) that the
response never uses; they are reproduced here for fidelity. -/
def get_subcontractor_payment_status (contractor : Option Contractor) (jobs : List Job) :
    PaymentStatusResp :=
  match contractor with
  | none => PaymentStatusResp.notFound "User not found"
  | some c =>
    let contractor_name := paymentStatusJoinKey c.first_name c.last_name
    let completed_jobs := jobs.filter (fun j => j.status = "completed")
    let in_progress_jobs := jobs.filter (fun j => j.status = "assigned" ∨ j.status = "pending")
    PaymentStatusResp.ok contractor_name
      (jobs.map fun j =>
        { id := j.id, title := j.title, status := j.status, due_date := j.due_date })

/-! ### Conversation history -/

/-- A `conversation_history` row; `id` is the auto-increment primary key. -/
structure ChatRow where
  id : Nat
  telegram_id : Int
  role : String
  message : String
deriving DecidableEq

/-- One message of the conversation-history response. -/
structure ChatMsg where
  role : String
  content : String
deriving DecidableEq

/-- `SELECT role, message, created_at FROM conversation_history
WHERE telegram_id = $1 ORDER BY id DESC LIMIT $2`.  The table is modelled as its
list of rows in insertion order; because `id` is auto-increment, ordering by
`id` descending is reversing the insertion order. -/
def fetchHistoryDesc (db : List ChatRow) (telegram_id : Int) (limit : Nat) : List ChatRow :=
  ((db.filter (fun r => r.telegram_id = telegram_id)).reverse).take limit

/-- `get_conversation_history` (lines 418-451): fetch the newest `limit` rows in
descending id order, reverse to chronological order, and shape each row to
`{role, content}`. -/
def get_conversation_history (db : List ChatRow) (telegram_id : Int) (limit : Nat) :
    List ChatMsg :=
  let messages := fetchHistoryDesc db telegram_id limit
  let messages := messages.reverse
  messages.map (fun m => { role := m.role, content := m.message })

/-- Evaluating `parseHours` on a concrete well-formed duration string. -/
theorem parseHours_430 : parseHours "4:30".data = Except.ok (9/2) := by
  have h := @parseHours_wellFormed ['4'] ['3','0'] (by simp) (by simp)
    (by decide) (by decide)
  have e1 : digitsToNat ['4'] = 4 := by decide
  have e2 : digitsToNat ['3','0'] = 30 := by decide
  rw [e1, e2] at h
  rw [show "4:30".data = ['4'] ++ ':' :: ['3','0'] from rfl, h]
  norm_num

/-- Evaluating `parseHours` on `"3:15"`. -/
theorem parseHours_315 : parseHours "3:15".data = Except.ok (13/4) := by
  have h := @parseHours_wellFormed ['3'] ['1','5'] (by simp) (by simp)
    (by decide) (by decide)
  have e1 : digitsToNat ['3'] = 3 := by decide
  have e2 : digitsToNat ['1','5'] = 15 := by decide
  rw [e1, e2] at h
  rw [show "3:15".data = ['3'] ++ ':' :: ['1','5'] from rfl, h]
  norm_num

/-- Evaluating `parseHours` on `"0:15"`. -/
theorem parseHours_015 : parseHours "0:15".data = Except.ok (1/4) := by
  have h := @parseHours_wellFormed ['0'] ['1','5'] (by simp) (by simp)
    (by decide) (by decide)
  have e1 : digitsToNat ['0'] = 0 := by decide
  have e2 : digitsToNat ['1','5'] = 15 := by decide
  rw [e1, e2] at h
  rw [show "0:15".data = ['0'] ++ ':' :: ['1','5'] from rfl, h]
  norm_num

/-- Aggregating the two sessions of the spec scenario. -/
theorem totalHours_430_315 : totalHours [some "4:30", some "3:15"] = Except.ok (31/4) := by
  simp only [totalHours, sessionHours]
  rw [if_neg (by decide : ¬("4:30" : String) = ""), if_neg (by decide : ¬("3:15" : String) = "")]
  rw [parseHours_430, parseHours_315]
  norm_num

/-- Aggregating a single `"4:30"` session. -/
theorem totalHours_430 : totalHours [some "4:30"] = Except.ok (9/2) := by
  simp only [totalHours, sessionHours]
  rw [if_neg (by decide : ¬("4:30" : String) = "")]
  rw [parseHours_430]
  norm_num

/-- Aggregating a single `"0:15"` session. -/
theorem totalHours_015 : totalHours [some "0:15"] = Except.ok (1/4) := by
  simp only [totalHours, sessionHours]
  rw [if_neg (by decide : ¬("0:15" : String) = "")]
  rw [parseHours_015]
  norm_num

/-- The contractor of the spec scenario: rate 12.50, not CIS-registered. -/
def scenarioContractor : Contractor :=
  { id := 1, first_name := some "Ada", last_name := some "Lovelace", email := none,
    username := none, admin_pay_rate := some (25/2), is_cis_registered := some "false" }

/-! ### Claim C2 -/

/-- C2 (counterexample): on the spec scenario — rate 12.50, sessions `"4:30"` and
`"3:15"`, withholding 30% — the payments endpoint computes
`round(gross - net, 2) = round(29.0625, 2) = 29.06`, not the 29.07 the claim
states (29.07 would be `round(gross,2) - round(net,2)`). -/
theorem scenario_deduction_counterexample :
    (get_payment_status (some scenarioContractor) [some "4:30", some "3:15"]).cisDeduction
      = some (2906/100) ∧ (2906/100 : ℚ) ≠ 2907/100 := by
  have hb : ((some "false" : Option String) == some "true") = false := by decide
  constructor
  · simp only [get_payment_status, scenarioContractor, totalHours_430_315, PayResp.cisDeduction,
      hb, Bool.false_eq_true, if_false]
    norm_num [ratOr, pyRound2, rne]
  · norm_num

/-- C2 (amended): for the approved contractor with admin_pay_rate 12.50, not
CIS-registered (30% withholding), and week sessions `"4:30"` and `"3:15"`, the
parsed total is 7.75 hours and the payments endpoint returns
this_week_gross = 96.88, this_week_net = 67.81 and cis_deduction = 29.06. -/
theorem scenario_payment_amounts :
    totalHours [some "4:30", some "3:15"] = Except.ok (31/4) ∧
    get_payment_status (some scenarioContractor) [some "4:30", some "3:15"]
      = PayResp.ok "Ada Lovelace"
          { hourly_rate := 25/2
            cis_registered := false
            cis_rate := 30
            this_week_gross := 9688/100
            this_week_net := 6781/100
            cis_deduction := 2906/100 } := by
  refine ⟨totalHours_430_315, ?_⟩
  have hname : paymentsJoinKey (some "Ada") (some "Lovelace") = "Ada Lovelace" := by decide
  have hb : ((some "false" : Option String) == some "true") = false := by decide
  simp only [get_payment_status, scenarioContractor, totalHours_430_315, hname,
    hb, Bool.false_eq_true, if_false]
  norm_num [ratOr, pyRound2, rne]

/-! ### Claim C3 -/

/-- C3: for an approved contractor the payments endpoint selects a withholding
rate of 20 when `is_cis_registered` string-equals `"true"` and 30 otherwise, and
returns `gross = total_hours * hourly_rate`, `net = gross * (1 - rate/100)` and
`deduction = gross - net`, each rounded to 2 decimals. -/
theorem payments_withholding_formulas (c : Contractor) (ss : List (Option String)) (th : ℚ)
    (hth : totalHours ss = Except.ok th) :
    ∃ info, get_payment_status (some c) ss
        = PayResp.ok (paymentsJoinKey c.first_name c.last_name) info ∧
      info.cis_rate = (if c.is_cis_registered == some "true" then (20:ℚ) else 30) ∧
      info.this_week_gross = pyRound2 (th * ratOr c.admin_pay_rate 9) ∧
      info.this_week_net
        = pyRound2 (th * ratOr c.admin_pay_rate 9 * (1 - info.cis_rate / 100)) ∧
      info.cis_deduction
        = pyRound2 (th * ratOr c.admin_pay_rate 9
            - th * ratOr c.admin_pay_rate 9 * (1 - info.cis_rate / 100)) := by
  simp only [get_payment_status, hth]
  exact ⟨_, rfl, rfl, rfl, rfl, rfl⟩

/-- C3 witness: the theorem applied to a concrete CIS-registered contractor with
one `"4:30"` session. -/
theorem payments_withholding_formulas_witness :
    ∃ info, get_payment_status
        (some { id := 2, first_name := some "Grace", last_name := some "Hopper",
                email := none, username := none, admin_pay_rate := some 10,
                is_cis_registered := some "true" }) [some "4:30"]
        = PayResp.ok (paymentsJoinKey (some "Grace") (some "Hopper")) info ∧
      info.cis_rate = (if (some "true" : Option String) == some "true" then (20:ℚ) else 30) ∧
      info.this_week_gross = pyRound2 ((9:ℚ)/2 * ratOr (some 10) 9) ∧
      info.this_week_net
        = pyRound2 ((9:ℚ)/2 * ratOr (some 10) 9 * (1 - info.cis_rate / 100)) ∧
      info.cis_deduction
        = pyRound2 ((9:ℚ)/2 * ratOr (some 10) 9
            - (9:ℚ)/2 * ratOr (some 10) 9 * (1 - info.cis_rate / 100)) :=
  payments_withholding_formulas _ [some "4:30"] (9/2) totalHours_430

/-! ### Claim C10 -/

/-- C10: when the stored `admin_pay_rate` is NULL or zero, the payments response
reports `payment_info.hourly_rate = 0` (from `admin_pay_rate or 0`) while the
gross/net amounts are computed with the default rate 9 (from
`admin_pay_rate or 9.0`), so the reported rate differs from the rate used. -/
theorem payments_rate_report_mismatch (c : Contractor) (ss : List (Option String)) (th : ℚ)
    (hth : totalHours ss = Except.ok th)
    (hrate : c.admin_pay_rate = none ∨ c.admin_pay_rate = some 0) :
    ∃ info, get_payment_status (some c) ss
        = PayResp.ok (paymentsJoinKey c.first_name c.last_name) info ∧
      info.hourly_rate = 0 ∧
      info.this_week_gross = pyRound2 (th * 9) ∧
      info.this_week_net
        = pyRound2 (th * 9 * (1 - (if c.is_cis_registered == some "true" then (20:ℚ) else 30) / 100)) ∧
      info.hourly_rate ≠ ratOr c.admin_pay_rate 9 := by
  have h9 : ratOr c.admin_pay_rate 9 = 9 := by
    rcases hrate with h | h <;> simp [ratOr, h]
  have h0 : ratOr c.admin_pay_rate 0 = 0 := by
    rcases hrate with h | h <;> simp [ratOr, h]
  simp only [get_payment_status, hth, h9, h0]
  exact ⟨_, rfl, rfl, rfl, rfl, by norm_num⟩

/-- C10 witness: a NULL-rate contractor with one `"4:30"` session. -/
theorem payments_rate_report_mismatch_witness :
    ∃ info, get_payment_status
        (some { id := 3, first_name := some "Null", last_name := some "Rate",
                email := none, username := none, admin_pay_rate := none,
                is_cis_registered := none }) [some "4:30"]
        = PayResp.ok (paymentsJoinKey (some "Null") (some "Rate")) info ∧
      info.hourly_rate = 0 ∧
      info.this_week_gross = pyRound2 ((9:ℚ)/2 * 9) ∧
      info.this_week_net
        = pyRound2 ((9:ℚ)/2 * 9 * (1 - (if (none : Option String) == some "true" then (20:ℚ) else 30) / 100)) ∧
      info.hourly_rate ≠ ratOr none 9 :=
  payments_rate_report_mismatch _ [some "4:30"] (9/2) totalHours_430 (Or.inl rfl)

/-! ### Claim C4 -/

/-- The `total_gross_pay` field of a successful hours response. -/
def HoursResp.grossPay : HoursResp → Option ℚ
  | HoursResp.ok _ _ s => some s.total_gross_pay
  | _ => none

/-- C4 (counterexample): with rate 4.50 and one `"0:15"` session the exact gross
is 1.125; the endpoint returns `round(1.125, 2) = 1.12` (ties to even), while
half-up rounding of the exact amount gives 1.13.  So the responses do not use
half-up rounding. -/
theorem rounding_half_up_counterexample :
    (get_hours_summary
        (some { id := 4, first_name := some "Tess", last_name := none, email := none,
                username := none, admin_pay_rate := some (9/2), is_cis_registered := none })
        "week" [some "0:15"]).grossPay = some (112/100) ∧
    roundHalfUp2 ((1:ℚ)/4 * (9/2)) = 113/100 ∧
    (112:ℚ)/100 ≠ 113/100 := by
  refine ⟨?_, by norm_num [roundHalfUp2, rhu], by norm_num⟩
  simp only [get_hours_summary, totalHours_015, HoursResp.grossPay]
  norm_num [ratOr, pyRound2, rne]

/-- C4 (amended): every monetary response value equals the exact computed amount
rounded to 2 decimal places by `pyRound2`, which rounds ties to the even last
digit (banker's rounding, as Python's `round` does) — not ties away from zero. -/
theorem monetary_rounding_half_even (c : Contractor) (period : String)
    (ss : List (Option String)) (th : ℚ) (hth : totalHours ss = Except.ok th) :
    (∃ s, get_hours_summary (some c) period ss
        = HoursResp.ok period (hoursJoinKey c.first_name c.last_name) s ∧
      s.total_gross_pay = pyRound2 (th * ratOr c.admin_pay_rate 9) ∧
      s.total_net_pay = pyRound2 (th * ratOr c.admin_pay_rate 9 * (8/10))) ∧
    (∃ info, get_payment_status (some c) ss
        = PayResp.ok (paymentsJoinKey c.first_name c.last_name) info ∧
      info.this_week_gross = pyRound2 (th * ratOr c.admin_pay_rate 9) ∧
      info.this_week_net = pyRound2 (th * ratOr c.admin_pay_rate 9 *
        (1 - (if c.is_cis_registered == some "true" then (20:ℚ) else 30) / 100)) ∧
      info.cis_deduction = pyRound2 (th * ratOr c.admin_pay_rate 9 -
        th * ratOr c.admin_pay_rate 9 *
        (1 - (if c.is_cis_registered == some "true" then (20:ℚ) else 30) / 100))) := by
  constructor
  · simp only [get_hours_summary, hth]
    exact ⟨_, rfl, rfl, rfl⟩
  · simp only [get_payment_status, hth]
    exact ⟨_, rfl, rfl, rfl, rfl⟩

/-- C4 witness: the amended theorem applied to a rate-8 contractor with one
`"4:30"` session. -/
theorem monetary_rounding_half_even_witness :
    (∃ s, get_hours_summary
        (some { id := 5, first_name := some "Alan", last_name := some "Turing",
                email := none, username := none, admin_pay_rate := some 8,
                is_cis_registered := none }) "week" [some "4:30"]
        = HoursResp.ok "week" (hoursJoinKey (some "Alan") (some "Turing")) s ∧
      s.total_gross_pay = pyRound2 ((9:ℚ)/2 * ratOr (some 8) 9) ∧
      s.total_net_pay = pyRound2 ((9:ℚ)/2 * ratOr (some 8) 9 * (8/10))) ∧
    (∃ info, get_payment_status
        (some { id := 5, first_name := some "Alan", last_name := some "Turing",
                email := none, username := none, admin_pay_rate := some 8,
                is_cis_registered := none }) [some "4:30"]
        = PayResp.ok (paymentsJoinKey (some "Alan") (some "Turing")) info ∧
      info.this_week_gross = pyRound2 ((9:ℚ)/2 * ratOr (some 8) 9) ∧
      info.this_week_net = pyRound2 ((9:ℚ)/2 * ratOr (some 8) 9 *
        (1 - (if (none : Option String) == some "true" then (20:ℚ) else 30) / 100)) ∧
      info.cis_deduction = pyRound2 ((9:ℚ)/2 * ratOr (some 8) 9 -
        (9:ℚ)/2 * ratOr (some 8) 9 *
        (1 - (if (none : Option String) == some "true" then (20:ℚ) else 30) / 100))) :=
  monetary_rounding_half_even _ "week" [some "4:30"] (9/2) totalHours_430

/-! ### Claim C5 -/

/-- C5: the hours endpoint always computes `total_net = total_gross * 0.8`
(a flat 20% deduction), ignores `is_cis_registered` entirely, and therefore
applies a different withholding policy than the payments endpoint (which uses
30%, factor 0.7) whenever the flag is not `"true"`. -/
theorem hours_flat_20_percent (c : Contractor) (period : String) (ss : List (Option String))
    (th : ℚ) (hth : totalHours ss = Except.ok th)
    (hflag : c.is_cis_registered ≠ some "true") :
    (∃ s, get_hours_summary (some c) period ss
        = HoursResp.ok period (hoursJoinKey c.first_name c.last_name) s ∧
      s.total_net_pay = pyRound2 (th * ratOr c.admin_pay_rate 9 * (8/10))) ∧
    (∀ f, get_hours_summary (some { c with is_cis_registered := f }) period ss
        = get_hours_summary (some c) period ss) ∧
    (∃ info, get_payment_status (some c) ss
        = PayResp.ok (paymentsJoinKey c.first_name c.last_name) info ∧
      info.this_week_net = pyRound2 (th * ratOr c.admin_pay_rate 9 * (7/10))) := by
  refine ⟨?_, ?_, ?_⟩
  · simp only [get_hours_summary, hth]
    exact ⟨_, rfl, rfl⟩
  · intro f
    cases c
    rfl
  · have hb : (c.is_cis_registered == some "true") = false := by
      rw [beq_eq_false_iff_ne]
      exact hflag
    simp only [get_payment_status, hth, hb, Bool.false_eq_true, if_false]
    refine ⟨_, rfl, ?_⟩
    have h710 : (1 - (30:ℚ)/100) = 7/10 := by norm_num
    rw [h710]

/-- C5 witness: a non-registered contractor with one `"4:30"` session. -/
theorem hours_flat_20_percent_witness :
    (∃ s, get_hours_summary
        (some { id := 6, first_name := some "Mary", last_name := some "Shelley",
                email := none, username := none, admin_pay_rate := some 12,
                is_cis_registered := some "false" }) "today" [some "4:30"]
        = HoursResp.ok "today" (hoursJoinKey (some "Mary") (some "Shelley")) s ∧
      s.total_net_pay = pyRound2 ((9:ℚ)/2 * ratOr (some 12) 9 * (8/10))) ∧
    (∀ f, get_hours_summary
        (some { id := 6, first_name := some "Mary", last_name := some "Shelley",
                email := none, username := none, admin_pay_rate := some 12,
                is_cis_registered := f }) "today" [some "4:30"]
        = get_hours_summary
            (some { id := 6, first_name := some "Mary", last_name := some "Shelley",
                    email := none, username := none, admin_pay_rate := some 12,
                    is_cis_registered := some "false" }) "today" [some "4:30"]) ∧
    (∃ info, get_payment_status
        (some { id := 6, first_name := some "Mary", last_name := some "Shelley",
                email := none, username := none, admin_pay_rate := some 12,
                is_cis_registered := some "false" }) [some "4:30"]
        = PayResp.ok (paymentsJoinKey (some "Mary") (some "Shelley")) info ∧
      info.this_week_net = pyRound2 ((9:ℚ)/2 * ratOr (some 12) 9 * (7/10))) :=
  hours_flat_20_percent _ "today" [some "4:30"] (9/2) totalHours_430 (by decide)

/-! ### Claim C8 -/

/-- C8: when the approved-contractor lookup misses, every contractor-facing GET
handler returns its HTTP-200 `success: false` body with a descriptive error
(the `notFound` constructor), never the `serverError` (HTTP 500) path. -/
theorem lookup_miss_returns_success_false (chat_id period : String)
    (ss : List (Option String)) (jobs : List Job) :
    get_worker_type chat_id none
      = WorkerTypeResp.notFound "User not found or not approved" chat_id ∧
    get_hours_summary none period ss = HoursResp.notFound "User not found" ∧
    get_payment_status none ss = PayResp.notFound "User not found" ∧
    get_subcontractor_quotes none jobs = QuotesResp.notFound "User not found" ∧
    get_subcontractor_milestones none jobs = MilestonesResp.notFound "User not found" ∧
    get_subcontractor_payment_status none jobs = PaymentStatusResp.notFound "User not found" :=
  ⟨rfl, rfl, rfl, rfl, rfl, rfl⟩

/-! ### Claim C9 -/

/-- C9: all five handlers that join contractor to work sessions or jobs build the
join key by the same function — trimmed concatenation of first and last name
with a single separating space, empty parts tolerated — which matches the
spec-side `specJoinKey` definition. -/
theorem join_key_uniform :
    hoursJoinKey = specJoinKey ∧ paymentsJoinKey = specJoinKey ∧
    quotesJoinKey = specJoinKey ∧ milestonesJoinKey = specJoinKey ∧
    paymentStatusJoinKey = specJoinKey :=
  ⟨rfl, rfl, rfl, rfl, rfl⟩

/-! ### Claim C1 -/

/-- If any session's duration string raises in the loop body, the whole
aggregation raises. -/
theorem totalHours_error_of_mem {ss : List (Option String)} {s : String}
    (hs : some s ∈ ss) (hne : s ≠ "") {e : String}
    (he : parseHours s.data = Except.error e) :
    ∃ e2, totalHours ss = Except.error e2 := by
  induction ss with
  | nil => simp at hs
  | cons a t ih =>
    rcases List.mem_cons.mp hs with h | h
    · have hsa : sessionHours a = Except.error e := by
        rw [← h]
        simp only [sessionHours, if_neg hne, he]
      simp only [totalHours, hsa]
      exact ⟨e, rfl⟩
    · rcases ih h with ⟨e2, he2⟩
      simp only [totalHours]
      cases hsa : sessionHours a with
      | error e0 => exact ⟨e0, rfl⟩
      | ok h0 => rw [he2]; exact ⟨e2, rfl⟩

/-- C1 (counterexample): a single session `"730"` (no `':'` separator) makes both
the hours and the payments request return HTTP 500 (`IndexError` inside the
loop) instead of skipping the malformed entry and answering with total 0. -/
theorem malformed_duration_500_counterexample :
    get_hours_summary (some scenarioContractor) "week" [some "730"]
      = HoursResp.serverError "Database error: list index out of range" ∧
    get_payment_status (some scenarioContractor) [some "730"]
      = PayResp.serverError "Database error: list index out of range" := by
  have h730 : totalHours [some "730"] = Except.error "list index out of range" := by decide
  constructor
  · simp only [get_hours_summary, scenarioContractor, h730]
    rfl
  · simp only [get_payment_status, scenarioContractor, h730]
    rfl

/-- C1 (amended): a session whose duration is NULL or empty is skipped with
contribution 0, but a session with a malformed non-empty duration string
(missing `':'` or a non-numeric part) aborts the request: the hours and
payments handlers answer HTTP 500 rather than skipping the entry. -/
theorem malformed_duration_aborts_request (c : Contractor) (period : String)
    (ss : List (Option String)) (s : String) (hs : some s ∈ ss) (hne : s ≠ "")
    (e : String) (he : parseHours s.data = Except.error e) :
    sessionHours none = Except.ok 0 ∧
    sessionHours (some "") = Except.ok 0 ∧
    (∃ d, get_hours_summary (some c) period ss = HoursResp.serverError d) ∧
    (∃ d, get_payment_status (some c) ss = PayResp.serverError d) := by
  obtain ⟨e2, he2⟩ := totalHours_error_of_mem hs hne he
  refine ⟨rfl, by decide, ⟨"Database error: " ++ e2, ?_⟩, ⟨"Database error: " ++ e2, ?_⟩⟩
  · simp only [get_hours_summary, he2]
  · simp only [get_payment_status, he2]

/-- C1 witness: the amended theorem at the malformed session list `["730"]`. -/
theorem malformed_duration_aborts_request_witness :
    sessionHours none = Except.ok 0 ∧
    sessionHours (some "") = Except.ok 0 ∧
    (∃ d, get_hours_summary (some scenarioContractor) "week" [some "730"]
        = HoursResp.serverError d) ∧
    (∃ d, get_payment_status (some scenarioContractor) [some "730"]
        = PayResp.serverError d) :=
  malformed_duration_aborts_request scenarioContractor "week" [some "730"] "730"
    (by simp) (by decide) "list index out of range" (by decide)

/-! ### Claim C6 -/

/-- C6 (counterexample): for the session list `["abc"]` the aggregation does not
produce the claimed total 0 — it raises (`ValueError` from `float("abc")`). -/
theorem aggregation_total_counterexample :
    totalHours [some "abc"] = Except.error "could not convert string to float" ∧
    totalHours [some "abc"] ≠ Except.ok 0 := by
  constructor
  · decide
  · decide

/-- C6 (amended): over sessions whose durations are each NULL, empty, or a
well-formed `"<digits>:<digits>"` string, the aggregate equals the sum of
`hours + minutes/60` over the well-formed entries, NULL/empty contributing 0.
(A malformed non-empty entry instead aborts the aggregation; see C1.) -/
theorem aggregation_sum_wellformed (ss : List (Option String)) (vals : List ℚ)
    (h : List.Forall₂ (fun s v =>
      (s = none ∧ v = 0) ∨ (s = some "" ∧ v = 0) ∨
      (∃ str hd md, s = some str ∧ str.data = hd ++ ':' :: md ∧ hd ≠ [] ∧ md ≠ [] ∧
        (∀ c ∈ hd, c.isDigit = true) ∧ (∀ c ∈ md, c.isDigit = true) ∧
        v = (digitsToNat hd : ℚ) + (digitsToNat md : ℚ) / 60)) ss vals) :
    totalHours ss = Except.ok vals.sum := by
  induction h with
  | nil => rfl
  | @cons a v t vs hrel hrest ih =>
    have hsa : sessionHours a = Except.ok v := by
      rcases hrel with ⟨rfl, rfl⟩ | ⟨rfl, rfl⟩ | ⟨str, hd, md, rfl, hdata, hh, hm, hd1, hd2, rfl⟩
      · rfl
      · decide
      · have hne : str ≠ "" := by
          intro h0
          have hcontr : (hd ++ ':' :: md) = [] := by
            rw [← hdata, h0]
          simp at hcontr
        simp only [sessionHours, if_neg hne, hdata, parseHours_wellFormed hh hm hd1 hd2]
    simp only [totalHours, hsa, ih, List.sum_cons]

/-- C6 witness: the amended theorem on a mixed list with a well-formed, a NULL,
an empty and another well-formed duration. -/
theorem aggregation_sum_wellformed_witness :
    totalHours [some "4:30", none, some "", some "3:15"]
      = Except.ok ([(9:ℚ)/2, 0, 0, 13/4].sum) :=
  aggregation_sum_wellformed _ _
    (List.Forall₂.cons
      (Or.inr (Or.inr ⟨"4:30", ['4'], ['3','0'], rfl, rfl, by simp, by simp,
        by decide, by decide, by
          have e1 : digitsToNat ['4'] = 4 := by decide
          have e2 : digitsToNat ['3','0'] = 30 := by decide
          rw [e1, e2]; norm_num⟩))
      (List.Forall₂.cons (Or.inl ⟨rfl, rfl⟩)
        (List.Forall₂.cons (Or.inr (Or.inl ⟨rfl, rfl⟩))
          (List.Forall₂.cons
            (Or.inr (Or.inr ⟨"3:15", ['3'], ['1','5'], rfl, rfl, by simp, by simp,
              by decide, by decide, by
                have e1 : digitsToNat ['3'] = 3 := by decide
                have e2 : digitsToNat ['1','5'] = 15 := by decide
                rw [e1, e2]; norm_num⟩))
            List.Forall₂.nil))))

/-! ### Claim C7 -/

/-- C7: with `1 ≤ limit ≤ 100` and an append-only table whose auto-increment ids
increase along insertion order, the conversation-history read returns at most
`limit` messages, exactly the last (most recent) `limit` matching rows in
chronological order — the reverse of the descending-id fetch order. -/
theorem conversation_history_read (db : List ChatRow) (tid : Int) (limit : Nat)
    (h1 : 1 ≤ limit) (h2 : limit ≤ 100)
    (hids : db.Pairwise (fun a b => a.id < b.id)) :
    (get_conversation_history db tid limit).length ≤ limit ∧
    get_conversation_history db tid limit
      = ((db.filter (fun r => r.telegram_id = tid)).drop
          ((db.filter (fun r => r.telegram_id = tid)).length - limit)).map
          (fun m => { role := m.role, content := m.message }) ∧
    ((db.filter (fun r => r.telegram_id = tid)).drop
        ((db.filter (fun r => r.telegram_id = tid)).length - limit)).Pairwise
      (fun a b => a.id < b.id) ∧
    get_conversation_history db tid limit
      = ((fetchHistoryDesc db tid limit).reverse).map
          (fun m => { role := m.role, content := m.message }) := by
  have hfetch : fetchHistoryDesc db tid limit
      = ((db.filter (fun r => r.telegram_id = tid)).drop
          ((db.filter (fun r => r.telegram_id = tid)).length - limit)).reverse := by
    rw [fetchHistoryDesc]
    exact List.take_reverse
  refine ⟨?_, ?_, ?_, rfl⟩
  · show (((fetchHistoryDesc db tid limit).reverse).map
      (fun m => ({ role := m.role, content := m.message } : ChatMsg))).length ≤ limit
    rw [List.length_map, List.length_reverse, fetchHistoryDesc, List.length_take]
    exact Nat.min_le_left _ _
  · show ((fetchHistoryDesc db tid limit).reverse).map
        (fun m => ({ role := m.role, content := m.message } : ChatMsg)) = _
    rw [hfetch, List.reverse_reverse]
  · have hfil : (db.filter (fun r => r.telegram_id = tid)).Pairwise
        (fun a b => a.id < b.id) :=
      List.Pairwise.sublist (List.filter_sublist db) hids
    exact List.Pairwise.sublist (List.drop_sublist _ _) hfil

/-- C7 witness: a three-row table, two rows for telegram id 5, read with
limit 1 — exactly the most recent matching message comes back. -/
theorem conversation_history_read_witness :
    (get_conversation_history
        [⟨1, 5, "user", "hi"⟩, ⟨2, 5, "assistant", "hello"⟩, ⟨3, 6, "user", "x"⟩]
        5 1).length ≤ 1 ∧
    get_conversation_history
        [⟨1, 5, "user", "hi"⟩, ⟨2, 5, "assistant", "hello"⟩, ⟨3, 6, "user", "x"⟩] 5 1
      = ((([⟨1, 5, "user", "hi"⟩, ⟨2, 5, "assistant", "hello"⟩,
            ⟨3, 6, "user", "x"⟩] : List ChatRow).filter
            (fun r => r.telegram_id = 5)).drop
          ((([⟨1, 5, "user", "hi"⟩, ⟨2, 5, "assistant", "hello"⟩,
            ⟨3, 6, "user", "x"⟩] : List ChatRow).filter
            (fun r => r.telegram_id = 5)).length - 1)).map
          (fun m => { role := m.role, content := m.message }) ∧
    ((([⟨1, 5, "user", "hi"⟩, ⟨2, 5, "assistant", "hello"⟩,
        ⟨3, 6, "user", "x"⟩] : List ChatRow).filter
        (fun r => r.telegram_id = 5)).drop
      ((([⟨1, 5, "user", "hi"⟩, ⟨2, 5, "assistant", "hello"⟩,
        ⟨3, 6, "user", "x"⟩] : List ChatRow).filter
        (fun r => r.telegram_id = 5)).length - 1)).Pairwise
      (fun a b => a.id < b.id) ∧
    get_conversation_history
        [⟨1, 5, "user", "hi"⟩, ⟨2, 5, "assistant", "hello"⟩, ⟨3, 6, "user", "x"⟩] 5 1
      = ((fetchHistoryDesc
          [⟨1, 5, "user", "hi"⟩, ⟨2, 5, "assistant", "hello"⟩, ⟨3, 6, "user", "x"⟩]
          5 1).reverse).map
          (fun m => { role := m.role, content := m.message }) :=
  conversation_history_read
    [⟨1, 5, "user", "hi"⟩, ⟨2, 5, "assistant", "hello"⟩, ⟨3, 6, "user", "x"⟩] 5 1
    (by decide) (by decide) (by decide)

end JobTracker
